import Mathlib

/-!
Shallow embedding of `scripts/arxiv_meteo_ai_rss.py` (the repository's single
source file): an arXiv fetch / filter / deduplicate / summarize / render /
persist pipeline.

Modelling conventions:
- Python strings are modelled as `List Char` (`PyStr`): every string operation
  the script uses (`lower`, `split(". ")`, `replace`, `join`, slicing, `in`)
  acts on code points, which `List Char` captures exactly, and all our
  definitions reduce in the kernel.
- `datetime` values become `Timestamp`: a wall-clock value (seconds) plus an
  optional UTC offset (seconds); `none` is a naive datetime.  Comparison of
  aware datetimes compares instants (wall minus offset), and
  `ts.replace(tzinfo=tz.UTC)` becomes setting the offset to zero.
- Environment-driven configuration (`LOOKBACK_HOURS`, `MAX_ITEMS_PER_RUN`,
  the current time) is passed as an explicit `RunConfig` value.
- The external DeepSeek/OpenAI completion call is modelled as an oracle
  `PyStr → PyStr → RemoteOutcome`: it either returns text or raises.
- The external `feedgen.FeedGenerator` is modelled as the ordered list of
  entries added to it: `add_entry` appends, so the feed lists entries in the
  order the script adds them (the consumed-interface behaviour the spec
  describes for the renderer).
- The state file is modelled as `Option (Option (List PyStr))`: `none` means
  the file is absent, `some none` an existing file that `json.load` cannot
  parse (the parse itself is the external `json` library), and
  `some (some ids)` a file parsing to `{"seen_ids": ids}`.
-/

/-- Python strings as lists of code points. -/
abbrev PyStr := List Char

/-- Python `str.lower()` restricted to the ASCII range, which covers every
needle the script lowercases. -/
def lower (s : PyStr) : PyStr := s.map Char.toLower

/-- Python's `needle in hay` substring test. -/
def pyIn (needle hay : PyStr) : Bool := decide (needle <:+: hay)

/-- Python `s.replace("\n", " ")` (the separator is a single character, so the
replacement is a character map). -/
def newlineToSpace (s : PyStr) : PyStr := s.map (fun c => if c = '\n' then ' ' else c)

/-- Python `s.replace("\n", "<br/>")`, used when rendering the digest to HTML. -/
def newlineToBr : PyStr → PyStr
  | [] => []
  | '\n' :: rest => '<' :: 'b' :: 'r' :: '/' :: '>' :: newlineToBr rest
  | c :: rest => c :: newlineToBr rest

/-- Worker for `splitDotSpace`: scans left to right, splitting greedily at each
non-overlapping occurrence of `". "`, exactly as Python `str.split(". ")`. -/
def splitDotSpaceAux : List Char → List Char → List (List Char)
  | [], acc => [acc.reverse]
  | '.' :: ' ' :: rest, acc => acc.reverse :: splitDotSpaceAux rest []
  | c :: rest, acc => splitDotSpaceAux rest (c :: acc)

/-- Python `s.split(". ")`. -/
def splitDotSpace (s : PyStr) : List PyStr := splitDotSpaceAux s []

/-- Python `str.strip()` on the remote model's reply (drop leading and trailing
whitespace). -/
def pyStrip (s : PyStr) : PyStr :=
  ((s.dropWhile Char.isWhitespace).reverse.dropWhile Char.isWhitespace).reverse

/-- Python `l[-n:]`: the trailing slice of at most `n` elements. -/
def lastN (n : Nat) (l : List PyStr) : List PyStr := l.drop (l.length - n)

/-- BLACKLIST_TERMS from the configuration block. -/
def BLACKLIST_TERMS : List PyStr := ["quantum field".data, "string theory".data]

/-- A `datetime`: wall-clock seconds together with an optional UTC offset in
seconds; `tzOffset = none` models a naive datetime. -/
structure Timestamp where
  wall : Int
  tzOffset : Option Int
deriving DecidableEq

/-- The instant an aware datetime denotes (wall clock minus offset); for the
script's comparisons a naive datetime is first normalized, so `getD 0` agrees
with every use below. -/
def Timestamp.instant (t : Timestamp) : Int := t.wall - t.tzOffset.getD 0

/-- Model of `ts.replace(tzinfo=tz.UTC)` guarded by `if ts.tzinfo is None`
(source lines 88-89 and 141-142): a naive datetime is reinterpreted as UTC. -/
def normalizeNaive (t : Timestamp) : Timestamp :=
  if t.tzOffset.isNone then ⟨t.wall, some 0⟩ else t

/-- A normalized record produced by `fetch_arxiv` (source lines 71-80).  The
arXiv client always supplies `published`; `updated` is optional so that the
script's `item["updated"] or item["published"]` fallback is observable. -/
structure Paper where
  id : PyStr
  title : PyStr
  summary : PyStr
  authors : List PyStr
  updated : Option Timestamp
  published : Timestamp
  link : PyStr
deriving DecidableEq

/-- within_lookback (source lines 83-90).  `now` is the instant of
`datetime.now(local)`; the timezone only affects the displayed wall clock, not
the instant, so the threshold is `now - hours * 3600` seconds. -/
def within_lookback (item : Paper) (hours now : Int) : Bool :=
  let threshold := now - hours * 3600
  let ts := normalizeNaive (item.updated.getD item.published)
  decide (ts.instant ≥ threshold)

/-- topic_ok (source lines 93-95). -/
def topic_ok (item : Paper) : Bool :=
  let text := lower (item.title ++ [' '] ++ item.summary)
  !(BLACKLIST_TERMS.any (fun b => pyIn (lower b) text))

/-- Outcome of the external chat-completion call inside the `try` block of
`summarize`: either the reply text, or any raised exception (import error,
credential error, network error, ...). -/
inductive RemoteOutcome where
  | ok (content : PyStr)
  | exn (msg : PyStr)
deriving DecidableEq

/-- Data-provenance bullet of the fallback summarizer (source line 130). -/
def dataBullet : PyStr := "数据：包含再分析/卫星/观测等来源。".data

/-- Methodology bullet of the fallback summarizer (source line 132). -/
def methodBullet : PyStr := "方法：采用机器学习/深度学习模型。".data

/-- Application-task bullet of the fallback summarizer (source line 134). -/
def taskBullet : PyStr := "任务：降尺度/预报/临近预测等应用场景。".data

/-- Generic read-the-source bullet of the fallback summarizer (source line 136). -/
def genericBullet : PyStr := "摘要未提供更多细节，建议阅读原文。".data

/-- Trigger for the data-provenance bullet (source line 129), applied to the
lower-cased abstract. -/
def wantsData (low : PyStr) : Bool :=
  pyIn "dataset".data low || pyIn "era5".data low || pyIn "reanalysis".data low

/-- Trigger for the methodology bullet (source line 131). -/
def wantsMethod (low : PyStr) : Bool :=
  pyIn "model".data low || pyIn "neural".data low || pyIn "transformer".data low

/-- Trigger for the application-task bullet (source line 133). -/
def wantsTask (low : PyStr) : Bool :=
  pyIn "downscal".data low || pyIn "forecast".data low || pyIn "nowcast".data low

/-- Head of the fallback digest (source lines 125-126): first at most three
". "-separated sentences of the newline-flattened abstract, rejoined and cut
to 600 characters. -/
def fallback_head (abstract : PyStr) : PyStr :=
  (List.intercalate ". ".data ((splitDotSpace (newlineToSpace abstract)).take 3)).take 600

/-- Bullet list of the fallback digest (source lines 127-136). -/
def fallback_bullets (abstract : PyStr) : List PyStr :=
  let low := lower abstract
  let bullets :=
    (if wantsData low then [dataBullet] else []) ++
    (if wantsMethod low then [methodBullet] else []) ++
    (if wantsTask low then [taskBullet] else [])
  if bullets = [] then [genericBullet] else bullets

/-- The fallback digest (source line 137): head, blank line, bullet list. -/
def fallback_summary (abstract : PyStr) : PyStr :=
  fallback_head abstract ++ "\n\n要点：\n- ".data ++
    List.intercalate "\n- ".data (fallback_bullets abstract)

/-- summarize (source lines 98-137).  `apiKey` models `os.getenv("DEEPSEEK_API_KEY")`
(`none` = unset, and Python treats the empty string as falsy too); `remote`
models the whole `try` body up to the reply text.  An `exn` outcome is caught
and the rule-based fallback is used. -/
def summarize (apiKey : Option PyStr) (remote : PyStr → PyStr → RemoteOutcome)
    (title abstract : PyStr) : PyStr :=
  if (apiKey.getD []).isEmpty then fallback_summary abstract
  else
    match remote title abstract with
    | RemoteOutcome.ok content => pyStrip content
    | RemoteOutcome.exn _ => fallback_summary abstract

/-- to_rfc822 (source lines 140-143) up to the external `email.utils.format_datetime`
serialization: the script normalizes a naive datetime to UTC and hands the
result to the formatter, so we keep the normalized timestamp. -/
def to_rfc822 (t : Timestamp) : Timestamp := normalizeNaive t

/-- RSS channel metadata (source lines 31-35). -/
structure Channel where
  title : PyStr
  link : PyStr
  description : PyStr
deriving DecidableEq

/-- RSS_CHANNEL from the configuration block. -/
def RSS_CHANNEL : Channel :=
  ⟨"arXiv · 气象 × AI 精选论文".data,
   "https://example.github.io/arxiv-meteo-ai-rss/".data,
   "每日10:00自动更新 · 气象与AI交叉最新论文与要点".data⟩

/-- A dict built in the item loop of `main` (source lines 179-186). -/
structure Item where
  guid : PyStr
  title : PyStr
  link : PyStr
  authors : List PyStr
  pubDate : Timestamp
  summary_html : PyStr
deriving DecidableEq

/-- One feed entry as populated by the loop body of `build_rss`
(source lines 153-161). -/
structure Entry where
  id : PyStr
  title : PyStr
  link : PyStr
  pubDate : Timestamp
  description : PyStr
deriving DecidableEq

/-- The description string of source line 160. -/
def entry_description (it : Item) : PyStr :=
  "<p><b>Authors:</b> ".data ++ List.intercalate ", ".data (it.authors.take 8) ++
    "</p><p>".data ++ it.summary_html ++ "</p>".data

/-- One iteration of the `for it in items` loop of `build_rss`
(source lines 153-161). -/
def add_entry (it : Item) : Entry :=
  ⟨it.guid, it.title, it.link, to_rfc822 it.pubDate, entry_description it⟩

/-- The feed document assembled by `build_rss`, with the external
`FeedGenerator` modelled as the ordered entry list. -/
structure Feed where
  channel : Channel
  language : PyStr
  entries : List Entry
deriving DecidableEq

/-- build_rss (source lines 146-163): set channel metadata, then add one entry
per item in iteration order. -/
def build_rss (channel : Channel) (items : List Item) : Feed :=
  ⟨channel, "zh-CN".data, items.map add_entry⟩

/-- Run parameters of `main`: the environment-driven configuration plus the
current instant and the optional completion credential. -/
structure RunConfig where
  lookback_hours : Int
  max_items_per_run : Nat
  now : Int
  apiKey : Option PyStr

/-- The recency-and-topic filter of source line 171. -/
def filtered_papers (hours now : Int) (papers : List Paper) : List Paper :=
  papers.filter (fun p => within_lookback p hours now && topic_ok p)

/-- Deduplication and truncation of source lines 172-173: keep records whose id
is not in the seen set, then cut to the per-run cap. -/
def fresh_of (seen : List PyStr) (papers : List Paper) (m : Nat) : List Paper :=
  (papers.filter (fun p => decide (p.id ∉ seen))).take m

/-- One item dict of source lines 177-186. -/
def item_of (apiKey : Option PyStr) (remote : PyStr → PyStr → RemoteOutcome)
    (p : Paper) : Item :=
  ⟨p.id, p.title, p.link, p.authors, p.updated.getD p.published,
   newlineToBr (summarize apiKey remote p.title p.summary)⟩

/-- Everything a run produces (source lines 166-199): the deduplicated batch,
the rendered items, the feed written to `docs/index.xml`, and the `seen_ids`
list persisted to `state/state.json`. -/
structure RunResult where
  fresh : List Paper
  items : List Item
  feed : Feed
  saved_seen : List PyStr

/-- main (source lines 166-199) for one run.  `seen_ids` is the list loaded
from the state file; `papers` the fetcher's output, most recently submitted
first.  `seen_ids.dedup` models `set(state.get("seen_ids", []))`, and the
persisted union `list(seen | fresh_ids)[-5000:]` is modelled in first-occurrence
order (CPython's set iteration order is unspecified; the properties proved
below are order-independent). -/
def main_run (cfg : RunConfig) (remote : PyStr → PyStr → RemoteOutcome)
    (seen_ids : List PyStr) (papers : List Paper) : RunResult :=
  let seen := seen_ids.dedup
  let papersF := filtered_papers cfg.lookback_hours cfg.now papers
  let fresh := fresh_of seen papersF cfg.max_items_per_run
  let items := fresh.map (item_of cfg.apiKey remote)
  ⟨fresh, items, build_rss RSS_CHANNEL items,
   lastN 5000 ((seen ++ fresh.map Paper.id).dedup)⟩

/-- The state file seen by `ensure_state`: `none` = absent, `some none` =
present but `json.load` raises on it, `some (some ids)` = present and parsing
to `{"seen_ids": ids}`.  The JSON parse itself is the external `json` library. -/
abbrev StateFile := Option (Option (List PyStr))

/-- ensure_state (source lines 41-46): create the parent directory, write a
fresh `{"seen_ids": []}` when the file is absent, then open and `json.load` it.
The result pairs what the call returns (or the propagated parse exception)
with the file contents afterwards. -/
def ensure_state : StateFile → Except PyStr (List PyStr) × StateFile
  | none => (Except.ok [], some (some []))
  | some (some ids) => (Except.ok ids, some (some ids))
  | some none => (Except.error "json.load raised".data, some none)

/-- Spec-side reading of a record timestamp (spec §4.3): the UTC instant it
denotes, where a timestamp lacking timezone information is interpreted as UTC. -/
def observedInstantUTC (t : Timestamp) : Int :=
  match t.tzOffset with
  | none => t.wall
  | some off => t.wall - off

/-- Spec-side predicate (spec §4.3): `term` occurs as a case-insensitive
substring of `s`. -/
def caseInsensitiveOccurs (term s : PyStr) : Prop := lower term <:+: lower s

/-- Spec-side deduplicator output (spec §4.4): the subsequence of records whose
identifier is not in SeenState, truncated to the per-run cap, in input order. -/
def spec_dedup_output (seen_ids : List PyStr) (filtered : List Paper) (m : Nat) : List Paper :=
  (filtered.filter (fun p => decide (p.id ∉ seen_ids))).take m

/-- Spec-side trigger for the data-provenance bullet: the lower-cased abstract
contains "dataset", "era5" or "reanalysis". -/
def mentionsData (abstract : PyStr) : Prop :=
  "dataset".data <:+: lower abstract ∨ "era5".data <:+: lower abstract ∨
    "reanalysis".data <:+: lower abstract

/-- Spec-side trigger for the methodology bullet: the lower-cased abstract
contains "model", "neural" or "transformer". -/
def mentionsMethod (abstract : PyStr) : Prop :=
  "model".data <:+: lower abstract ∨ "neural".data <:+: lower abstract ∨
    "transformer".data <:+: lower abstract

/-- Spec-side trigger for the application-task bullet: the lower-cased abstract
contains "downscal", "forecast" or "nowcast". -/
def mentionsTask (abstract : PyStr) : Prop :=
  "downscal".data <:+: lower abstract ∨ "forecast".data <:+: lower abstract ∨
    "nowcast".data <:+: lower abstract

/-- Saved set for claim C1 as the claim states it: the prior seen ids together
with the identifiers of ALL filtered records not yet seen, without the per-run
item cap. -/
def claimed_saved (seen_ids : List PyStr) (filtered : List Paper) : List PyStr :=
  (seen_ids.dedup ++ (filtered.filter (fun p => decide (p.id ∉ seen_ids))).map Paper.id).dedup

/-- A remote-completion oracle that always raises. -/
def failingRemote : PyStr → PyStr → RemoteOutcome :=
  fun _ _ => RemoteOutcome.exn "connection error".data

/-- A concrete aware timestamp used by concrete-input theorems. -/
def wTs : Timestamp := ⟨1000000, some 0⟩

/-- A concrete paper with identifier "b" that passes both filters at `wCfg`. -/
def wPaperB : Paper := ⟨"b".data, "t".data, "s".data, [], some wTs, wTs, "l".data⟩

/-- A concrete run configuration: default lookback 36 h and cap 20, current
instant 1000000, no completion credential. -/
def wCfg : RunConfig := ⟨36, 20, 1000000, none⟩

/-- The single feed entry the run at `wCfg` over `[wPaperB]` emits. -/
def wEntryB : Entry := add_entry (item_of none failingRemote wPaperB)

/-- Concrete papers "a", "b", ..., indexed by `i`, all passing both filters
at `wCfg`. -/
def cePaper (i : Nat) : Paper :=
  ⟨[Char.ofNat (97 + i)], "t".data, "s".data, [], some wTs, wTs, "l".data⟩

/-- Twenty-one concrete filtered papers: one more than the default per-run cap. -/
def cePapers : List Paper := (List.range 21).map cePaper

/-- A concrete item with exactly eight authors. -/
def wItem : Item :=
  ⟨"g".data, "t".data, "l".data,
   ["a1".data, "a2".data, "a3".data, "a4".data, "a5".data, "a6".data, "a7".data, "a8".data],
   wTs, "s".data⟩

theorem lastN_eq_of_le (n : Nat) (l : List PyStr) (h : l.length ≤ n) : lastN n l = l := by
  simp [lastN, Nat.sub_eq_zero_of_le h]

theorem dedup_not_mem_filter (seen_ids : List PyStr) (papers : List Paper) :
    papers.filter (fun p => decide (p.id ∉ seen_ids.dedup)) =
      papers.filter (fun p => decide (p.id ∉ seen_ids)) :=
  List.filter_congr (fun p _ => by simp [List.mem_dedup])

theorem main_run_fresh (cfg : RunConfig) (remote : PyStr → PyStr → RemoteOutcome)
    (seen_ids : List PyStr) (papers : List Paper) :
    (main_run cfg remote seen_ids papers).fresh =
      spec_dedup_output seen_ids (filtered_papers cfg.lookback_hours cfg.now papers)
        cfg.max_items_per_run := by
  simp [main_run, fresh_of, spec_dedup_output, dedup_not_mem_filter]

theorem main_run_entries (cfg : RunConfig) (remote : PyStr → PyStr → RemoteOutcome)
    (seen_ids : List PyStr) (papers : List Paper) :
    (main_run cfg remote seen_ids papers).feed.entries =
      (main_run cfg remote seen_ids papers).items.map add_entry := by
  simp [main_run, build_rss]

theorem main_run_item_guids (cfg : RunConfig) (remote : PyStr → PyStr → RemoteOutcome)
    (seen_ids : List PyStr) (papers : List Paper) :
    (main_run cfg remote seen_ids papers).items.map Item.guid =
      (main_run cfg remote seen_ids papers).fresh.map Paper.id := by
  simp [main_run, List.map_map, item_of, Function.comp_def]

theorem main_run_entry_ids (cfg : RunConfig) (remote : PyStr → PyStr → RemoteOutcome)
    (seen_ids : List PyStr) (papers : List Paper) :
    (main_run cfg remote seen_ids papers).feed.entries.map Entry.id =
      (main_run cfg remote seen_ids papers).fresh.map Paper.id := by
  simp [main_run, build_rss, List.map_map, add_entry, item_of, Function.comp_def]

/-- C3: for every record, `within_lookback` is true iff the record's updated
timestamp (or, when updated is absent, its published timestamp) denotes an
instant at or after the current time minus the lookback window, where a
timestamp lacking timezone information is interpreted as UTC. -/
theorem c3_within_lookback_iff (p : Paper) (hours now : Int) :
    within_lookback p hours now = true ↔
      observedInstantUTC (p.updated.getD p.published) ≥ now - hours * 3600 := by
  unfold within_lookback observedInstantUTC normalizeNaive
  cases h : (p.updated.getD p.published).tzOffset <;> simp [h, Timestamp.instant]

/-- C4: `topic_ok` returns false iff at least one blacklist term occurs as a
case-insensitive substring of the record's title, a single space, and its
abstract text concatenated. -/
theorem c4_topic_ok_false_iff (p : Paper) :
    topic_ok p = false ↔
      ∃ b ∈ BLACKLIST_TERMS, caseInsensitiveOccurs b (p.title ++ [' '] ++ p.summary) := by
  simp [topic_ok, caseInsensitiveOccurs, pyIn, lower]

/-- C6: the persisted `seen_ids` list of any run has length at most 5000: the
trailing-slice cap is applied to the union before saving. -/
theorem c6_saved_seen_le_5000 (cfg : RunConfig) (remote : PyStr → PyStr → RemoteOutcome)
    (seen_ids : List PyStr) (papers : List Paper) :
    (main_run cfg remote seen_ids papers).saved_seen.length ≤ 5000 := by
  simp only [main_run, lastN, List.length_drop]
  omega

/-- C7: whenever the remote-completion path raises (any exception: import,
credential, network, ...), `summarize` catches it and returns the
deterministic rule-based fallback digest, so summarization never aborts the
run. -/
theorem c7_summarize_fallback_on_exn (apiKey : Option PyStr)
    (remote : PyStr → PyStr → RemoteOutcome) (title abstract msg : PyStr)
    (h : remote title abstract = RemoteOutcome.exn msg) :
    summarize apiKey remote title abstract = fallback_summary abstract := by
  unfold summarize
  split
  · rfl
  · rw [h]

theorem c7_witness :
    failingRemote "T".data "A".data = RemoteOutcome.exn "connection error".data ∧
    summarize (some "sk-key".data) failingRemote "T".data "A".data =
      fallback_summary "A".data :=
  ⟨rfl, c7_summarize_fallback_on_exn (some "sk-key".data) failingRemote
    "T".data "A".data "connection error".data rfl⟩

/-- C9 refuted at a concrete input: an existing state file whose contents do
not parse makes `ensure_state` propagate the parse exception; it does not
return the empty-seen state the claim promises. -/
theorem c9_counterexample :
    (ensure_state (some none)).fst ≠ Except.ok ([] : List PyStr) ∧
    (ensure_state (some none)).fst = Except.error "json.load raised".data := by
  constructor
  · intro h
    simp [ensure_state] at h
  · rfl

/-- C9 (amended): `ensure_state` recovers from a missing state file by
initializing an empty state and persisting it immediately; a readable file
parses to its stored ids; but an existing file whose contents cannot be parsed
makes the parse exception propagate, so no state is returned in that case. -/
theorem c9_amended_ensure_state :
    ensure_state none = (Except.ok [], some (some [])) ∧
    (∀ ids : List PyStr, ensure_state (some (some ids)) = (Except.ok ids, some (some ids))) ∧
    ∀ ids : List PyStr, (ensure_state (some none)).fst ≠ Except.ok ids := by
  refine ⟨rfl, fun ids => rfl, fun ids h => ?_⟩
  simp [ensure_state] at h

/-- C5: the records turned into feed entries are exactly the at-most-cap-length
prefix of the subsequence of filtered records whose identifier is not in
SeenState, in the fetcher's original order (a sublist of the input), and the
renderer maps each item to one entry in exactly that order, with no filtering
or reordering. -/
theorem c5_dedup_truncate_render (cfg : RunConfig) (remote : PyStr → PyStr → RemoteOutcome)
    (seen_ids : List PyStr) (papers : List Paper) :
    (main_run cfg remote seen_ids papers).fresh =
        spec_dedup_output seen_ids (filtered_papers cfg.lookback_hours cfg.now papers)
          cfg.max_items_per_run ∧
    List.Sublist (main_run cfg remote seen_ids papers).fresh papers ∧
    (main_run cfg remote seen_ids papers).fresh.length ≤ cfg.max_items_per_run ∧
    (main_run cfg remote seen_ids papers).feed.entries =
        (main_run cfg remote seen_ids papers).items.map add_entry ∧
    (main_run cfg remote seen_ids papers).feed.entries.map Entry.id =
        (main_run cfg remote seen_ids papers).items.map Item.guid := by
  refine ⟨main_run_fresh cfg remote seen_ids papers, ?_, ?_, main_run_entries cfg remote seen_ids papers, ?_⟩
  · rw [main_run_fresh cfg remote seen_ids papers]
    exact ((List.take_sublist _ _).trans (List.filter_sublist _)).trans (List.filter_sublist _)
  · rw [main_run_fresh cfg remote seen_ids papers]
    simp [spec_dedup_output, List.length_take]
  · rw [main_run_entry_ids cfg remote seen_ids papers,
        main_run_item_guids cfg remote seen_ids papers]

theorem fresh_id_not_seen (cfg : RunConfig) (remote : PyStr → PyStr → RemoteOutcome)
    (seen_ids : List PyStr) (papers : List Paper) (p : Paper)
    (hp : p ∈ (main_run cfg remote seen_ids papers).fresh) : p.id ∉ seen_ids := by
  rw [main_run_fresh cfg remote seen_ids papers] at hp
  have h1 := List.mem_of_mem_take hp
  have h2 := (List.mem_filter.mp h1).2
  simpa using h2

/-- C2: an identifier present in the loaded SeenState is never the GUID of any
feed entry emitted by that run. -/
theorem c2_no_reemission (cfg : RunConfig) (remote : PyStr → PyStr → RemoteOutcome)
    (seen_ids : List PyStr) (papers : List Paper) (sid : PyStr) (e : Entry)
    (hs : sid ∈ seen_ids)
    (he : e ∈ (main_run cfg remote seen_ids papers).feed.entries) :
    e.id ≠ sid := by
  have hid : e.id ∈ (main_run cfg remote seen_ids papers).fresh.map Paper.id := by
    rw [← main_run_entry_ids cfg remote seen_ids papers]
    exact List.mem_map_of_mem Entry.id he
  obtain ⟨p, hp, hpe⟩ := List.mem_map.mp hid
  have hnot := fresh_id_not_seen cfg remote seen_ids papers p hp
  intro hcontra
  rw [hpe, hcontra] at hnot
  exact hnot hs

theorem c2_witness :
    "a".data ∈ (["a".data] : List PyStr) ∧
    wEntryB ∈ (main_run wCfg failingRemote ["a".data] [wPaperB]).feed.entries ∧
    wEntryB.id ≠ "a".data :=
  ⟨by decide, by decide,
   c2_no_reemission wCfg failingRemote ["a".data] [wPaperB] "a".data wEntryB
     (by decide) (by decide)⟩

/-- C1 refuted at a concrete input: with the default per-run cap of 20 and 21
filtered not-yet-seen records, the identifier "u" of the 21st record is in the
union the claim says is saved, but is not in the seen ids the run persists —
only the ids of the entries actually rendered are added. -/
theorem c1_counterexample :
    "u".data ∈ claimed_saved [] (filtered_papers 36 1000000 cePapers) ∧
    "u".data ∉ (main_run wCfg failingRemote [] cePapers).saved_seen := by
  decide

/-- C1 (amended): as long as the union stays within the 5000-entry cap, the
persisted seen ids are exactly the prior SeenState together with the GUIDs of
the entries actually rendered into the feed; identifiers dropped by the
per-run item-cap truncation are not persisted. -/
theorem c1_amended_saved_union (cfg : RunConfig) (remote : PyStr → PyStr → RemoteOutcome)
    (seen_ids : List PyStr) (papers : List Paper) (x : PyStr)
    (h : ((seen_ids.dedup ++
        (main_run cfg remote seen_ids papers).fresh.map Paper.id).dedup).length ≤ 5000) :
    x ∈ (main_run cfg remote seen_ids papers).saved_seen ↔
      x ∈ seen_ids ∨ x ∈ (main_run cfg remote seen_ids papers).items.map Item.guid := by
  have hs : (main_run cfg remote seen_ids papers).saved_seen =
      lastN 5000 ((seen_ids.dedup ++
        (main_run cfg remote seen_ids papers).fresh.map Paper.id).dedup) := by
    simp [main_run]
  rw [hs, lastN_eq_of_le _ _ h, main_run_item_guids cfg remote seen_ids papers]
  simp [List.mem_dedup, List.mem_append]

theorem c1_amended_witness :
    ((((["a".data] : List PyStr).dedup ++
        (main_run wCfg failingRemote ["a".data] [wPaperB]).fresh.map Paper.id).dedup).length ≤ 5000) ∧
    ("b".data ∈ (main_run wCfg failingRemote ["a".data] [wPaperB]).saved_seen ↔
      "b".data ∈ (["a".data] : List PyStr) ∨
        "b".data ∈ (main_run wCfg failingRemote ["a".data] [wPaperB]).items.map Item.guid) :=
  ⟨by decide,
   c1_amended_saved_union wCfg failingRemote ["a".data] [wPaperB] "b".data (by decide)⟩

/-- C10: the author line rendered into an entry's description contains the
first at most eight author names joined by ", ", and authors beyond the eighth
are silently omitted: appending further authors to a record that already has
eight does not change the rendered entry. -/
theorem c10_authors_head8 (it : Item) (extra : List PyStr) (h : 8 ≤ it.authors.length) :
    (add_entry it).description =
      "<p><b>Authors:</b> ".data ++ List.intercalate ", ".data (it.authors.take 8) ++
        "</p><p>".data ++ it.summary_html ++ "</p>".data ∧
    add_entry { it with authors := it.authors ++ extra } = add_entry it := by
  constructor
  · rfl
  · simp [add_entry, entry_description, List.take_append_of_le_length h]

theorem c10_witness :
    8 ≤ wItem.authors.length ∧
    ((add_entry wItem).description =
      "<p><b>Authors:</b> ".data ++ List.intercalate ", ".data (wItem.authors.take 8) ++
        "</p><p>".data ++ wItem.summary_html ++ "</p>".data ∧
     add_entry { wItem with authors := wItem.authors ++ ["a9".data] } = add_entry wItem) :=
  ⟨by decide, c10_authors_head8 wItem ["a9".data] (by decide)⟩

theorem wantsData_iff (abstract : PyStr) :
    wantsData (lower abstract) = true ↔ mentionsData abstract := by
  simp [wantsData, mentionsData, pyIn, or_assoc]

theorem wantsMethod_iff (abstract : PyStr) :
    wantsMethod (lower abstract) = true ↔ mentionsMethod abstract := by
  simp [wantsMethod, mentionsMethod, pyIn, or_assoc]

theorem wantsTask_iff (abstract : PyStr) :
    wantsTask (lower abstract) = true ↔ mentionsTask abstract := by
  simp [wantsTask, mentionsTask, pyIn, or_assoc]

/-- C8: the fallback digest is the first at-most-three ". "-separated sentences
of the newline-flattened abstract cut to at most 600 characters, followed by a
bullet list in which the data-provenance bullet appears iff the lower-cased
abstract contains "dataset", "era5" or "reanalysis", the methodology bullet
iff it contains "model", "neural" or "transformer", the application-task
bullet iff it contains "downscal", "forecast" or "nowcast", and the list is
exactly the single generic read-the-source bullet iff none of those terms
occur. -/
theorem c8_fallback_structure (abstract : PyStr) :
    fallback_summary abstract =
        fallback_head abstract ++ "\n\n要点：\n- ".data ++
          List.intercalate "\n- ".data (fallback_bullets abstract) ∧
    fallback_head abstract =
        (List.intercalate ". ".data
          ((splitDotSpace (newlineToSpace abstract)).take 3)).take 600 ∧
    (fallback_head abstract).length ≤ 600 ∧
    (dataBullet ∈ fallback_bullets abstract ↔ mentionsData abstract) ∧
    (methodBullet ∈ fallback_bullets abstract ↔ mentionsMethod abstract) ∧
    (taskBullet ∈ fallback_bullets abstract ↔ mentionsTask abstract) ∧
    (fallback_bullets abstract = [genericBullet] ↔
      ¬mentionsData abstract ∧ ¬mentionsMethod abstract ∧ ¬mentionsTask abstract) := by
  refine ⟨rfl, rfl, ?_, ?_, ?_, ?_, ?_⟩
  · simp only [fallback_head, List.length_take]
    omega
  · rw [← wantsData_iff]
    cases hd : wantsData (lower abstract) <;> cases hm : wantsMethod (lower abstract) <;>
      cases ht : wantsTask (lower abstract) <;>
        simp [fallback_bullets, hd, hm, ht] <;> decide
  · rw [← wantsMethod_iff]
    cases hd : wantsData (lower abstract) <;> cases hm : wantsMethod (lower abstract) <;>
      cases ht : wantsTask (lower abstract) <;>
        simp [fallback_bullets, hd, hm, ht] <;> decide
  · rw [← wantsTask_iff]
    cases hd : wantsData (lower abstract) <;> cases hm : wantsMethod (lower abstract) <;>
      cases ht : wantsTask (lower abstract) <;>
        simp [fallback_bullets, hd, hm, ht] <;> decide
  · rw [← wantsData_iff, ← wantsMethod_iff, ← wantsTask_iff]
    cases hd : wantsData (lower abstract) <;> cases hm : wantsMethod (lower abstract) <;>
      cases ht : wantsTask (lower abstract) <;>
        simp [fallback_bullets, hd, hm, ht] <;> decide
